import Mathlib

/-!
Verification of the search/result-normalization pipeline of the Hellio
repository (src/server/archive-org-search.py and
src/server/pdf-drive-scraper.py), as a shallow embedding in Lean 4.

Python string and list primitives used by the scripts (substring test `in`,
`str.lower`, `str.split`, `str.strip`, `str.replace`, `', '.join`,
`int(...)`) are modelled first; then the provider data model, the query
builder, the normalizers and the CLI entry points, each translated from the
source files.  Network I/O is abstracted as an explicit fetch-outcome
parameter: the HTTP layer either yields a parsed body or one of the
exception classes the scripts catch.
-/

set_option autoImplicit false

namespace Hellio

/-! ## Python string primitives -/

/-- Substring test on character lists: Python's `needle in hay`. -/
def listContainsSub (needle : List Char) : List Char → Bool
  | [] => needle.isEmpty
  | c :: t => needle.isPrefixOf (c :: t) || listContainsSub needle t

/-- Python's `needle in hay` on strings. -/
def strIn (needle hay : String) : Bool :=
  listContainsSub needle.data hay.data

/-- Python's `s.lower()` (ASCII-faithful). -/
def pyLower (s : String) : String := String.mk (s.data.map Char.toLower)

/-- Python's `s.startswith(pre)`. -/
def strStartsWith (s pre : String) : Bool := pre.data.isPrefixOf s.data

/-- Python's `s.split()`: split on whitespace runs, dropping empty pieces. -/
def pySplitWs (s : String) : List String :=
  (s.split Char.isWhitespace).filter (fun w => w ≠ "")

/-- Python's `s.strip()`. -/
def pyStrip (s : String) : String :=
  String.mk (((s.data.dropWhile Char.isWhitespace).reverse.dropWhile
    Char.isWhitespace).reverse)

/-- Python's `int(s)` as a partial function: optional surrounding
whitespace, optional sign, then at least one ASCII digit; `none` models a
`ValueError` being raised. -/
def pyInt (s : String) : Option Int :=
  let t := pyStrip s
  let core := if strStartsWith t "-" || strStartsWith t "+" then
      String.mk (t.data.drop 1)
    else t
  if core.length > 0 && core.data.all Char.isDigit then
    let n : Nat := core.data.foldl (fun acc c => acc * 10 + (c.toNat - 48)) 0
    some (if strStartsWith t "-" then -(n : Int) else (n : Int))
  else none

/-! ## Provider field values

Archive.org documents carry fields that are either a JSON string or a JSON
list of strings; `StrOrList` is that raw shape (the `RawResult` field shape
of the spec). -/

inductive StrOrList where
  | s (v : String)
  | l (vs : List String)
  deriving DecidableEq, Repr

/-- Python's `str(v)` on a string-or-list value: a list renders as
`[<repr of elements>]`, matching `str(['a', 'b'])`. -/
def pyStr : StrOrList → String
  | .s v => v
  | .l vs => "[" ++ String.intercalate ", " (vs.map (fun v => "\x27" ++ v ++ "\x27")) ++ "]"

/-- Flattening used throughout `archive-org-search.py`:
`', '.join(item.get(k, [])) if isinstance(item.get(k), list) else item.get(k, dflt)`.
A present list is comma-joined, a present string passes through, an absent
field yields the default. -/
def flattenField (v : Option StrOrList) (dflt : String) : String :=
  match v with
  | some (.l vs) => String.intercalate ", " vs
  | some (.s v) => v
  | none => dflt

/-! ## Archive.org data model (archive-org-search.py) -/

/-- One provider document as consumed by `search_archive_org_books`
(`fl[]` fields requested at line 97). A `none` field is absent from the
JSON object. -/
structure ArchiveDoc where
  identifier : Option String := none
  title : Option String := none
  creator : Option StrOrList := none
  date : Option String := none
  subject : Option StrOrList := none
  description : Option StrOrList := none
  downloads : Option Nat := none
  item_size : Option Nat := none
  language : Option StrOrList := none
  format : Option StrOrList := none
  deriving DecidableEq, Repr

/-- The `response` object of the Archive.org advancedsearch JSON body. -/
structure ArchiveResponseObj where
  docs : Option (List ArchiveDoc) := none
  numFound : Option Nat := none
  deriving DecidableEq, Repr

/-- Parsed JSON body of an Archive.org search response. -/
structure ArchiveData where
  response : Option ArchiveResponseObj := none
  items : Option (List ArchiveDoc) := none
  deriving DecidableEq, Repr

/-- A normalized book record as built at lines 137-154 of
`archive-org-search.py`. Every field is a plain string or number except
`description`, which the code copies raw from the document. -/
structure Book where
  id : Nat
  identifier : String
  title : String
  author : String
  year : String
  subject : String
  description : StrOrList
  downloads : Nat
  size : Nat
  language : String
  format : String
  viewUrl : String
  downloadUrl : String
  imageUrl : String
  category : String
  popularity : Nat
  deriving DecidableEq, Repr

/-! ## Query builder (archive-org-search.py, lines 12-91) -/

/-- The static `category_map` dictionary (lines 60-74). -/
def categoryMap : String → Option (List String)
  | "science" => some ["science", "physics", "chemistry", "biology", "scientific"]
  | "mathematics" => some ["mathematics", "math", "algebra", "calculus", "geometry", "mathematical"]
  | "engineering" => some ["engineering", "technology", "mechanical", "electrical", "technical"]
  | "physics" => some ["physics", "mechanics", "thermodynamics", "quantum", "physical"]
  | "chemistry" => some ["chemistry", "organic", "inorganic", "biochemistry", "chemical"]
  | "biology" => some ["biology", "genetics", "anatomy", "botany", "zoology", "biological"]
  | "computer" => some ["computer", "programming", "software", "algorithms", "computing"]
  | "programming" => some ["programming", "coding", "software", "development", "code"]
  | "history" => some ["history", "historical", "ancient", "modern", "chronicle"]
  | "literature" => some ["literature", "poetry", "fiction", "novels", "literary", "stories"]
  | "philosophy" => some ["philosophy", "ethics", "logic", "metaphysics", "philosophical"]
  | "business" => some ["business", "management", "economics", "finance", "commerce"]
  | "economics" => some ["economics", "finance", "money", "trade", "economic"]
  | _ => none

/-- Every ordered pair `(words[i], words[j])` with `i < j`, in the order the
nested loops at lines 46-47 enumerate them. -/
def wordPairs : List String → List (String × String)
  | [] => []
  | w :: ws => ws.map (fun v => (w, v)) ++ wordPairs ws

/-- The query expression built at lines 13-91 of `archive-org-search.py`:
phrase strategies, per-field word strategies, word-pair strategies, the
category synonym clause, the media-type filter and the collection denylist,
joined with AND. -/
def buildSearchQuery (query : String) (category : Option String) : String :=
  let queryClause : List String :=
    if query ≠ "" then
      let queryWords := ((pySplitWs query).filter (fun w => w.length > 2)).map pyLower
      let fullQuery := pyStrip (query.replace "\"" "")
      let strat1 : List String :=
        if fullQuery ≠ "" then
          ["title:\"" ++ fullQuery ++ "\"",
           "description:\"" ++ fullQuery ++ "\"",
           "subject:\"" ++ fullQuery ++ "\""]
        else []
      let strat2 : List String :=
        queryWords.flatMap (fun w =>
          ["title", "subject", "creator", "description"].flatMap (fun f =>
            [f ++ ":(" ++ w ++ ")", f ++ ":*" ++ w ++ "*", f ++ ":\"" ++ w ++ "\""]))
      let strat3 : List String :=
        if queryWords.length > 1 then
          (wordPairs queryWords).flatMap (fun p =>
            let pair := "\"" ++ p.1 ++ " " ++ p.2 ++ "\""
            ["title:" ++ pair, "description:" ++ pair])
        else []
      let strategies := strat1 ++ strat2 ++ strat3
      if strategies ≠ [] then ["(" ++ String.intercalate " OR " strategies ++ ")"] else []
    else []
  let categoryClause : List String :=
    match category with
    | some c =>
      if c ≠ "" && c ≠ "all" && c ≠ "null" then
        match categoryMap c with
        | some terms =>
          ["(" ++ String.intercalate " OR " (terms.map (fun t => "subject:" ++ t)) ++ ")"]
        | none => []
      else []
    | none => []
  String.intercalate " AND "
    (queryClause ++ categoryClause ++
      ["mediatype:texts", "-collection:softwarehistory", "-collection:vgmuseum"])

/-- The `rows` request parameter: `min(limit, 100)` (line 99). -/
def archiveRows (limit : Nat) : Nat := min limit 100

/-! ## Archive.org normalizer (lines 106-166) -/

/-- The `skip_keywords` denylist (lines 129-131). -/
def skipKeywords : List String :=
  ["manual", "game", "software", "version", "patch", "cheat",
   "walkthrough", "strategy guide", "development", "beta", "hint",
   "crack", "trainer", "save file", "rom", "emulator"]

/-- Lines 124-133: a document matches the non-book denylist when any
keyword occurs in the lowered title or in the lowered `str()` rendering of
the description. -/
def skipMatch (item : ArchiveDoc) : Bool :=
  let title := pyLower (item.title.getD "")
  let descr := pyLower (pyStr (item.description.getD (.s "")))
  skipKeywords.any (fun kw => strIn kw title || strIn kw descr)

/-- The book dict built at lines 137-154, with `id := i`
(`len(books) + 1` at the call site). -/
def mkBook (i : Nat) (item : ArchiveDoc) : Book :=
  let identifier := item.identifier.getD ""
  { id := i
    identifier := identifier
    title := item.title.getD "Unknown Title"
    author := flattenField item.creator "Unknown Author"
    year := item.date.getD "Unknown"
    subject := flattenField item.subject ""
    description := item.description.getD (.s "")
    downloads := item.downloads.getD 0
    size := item.item_size.getD 0
    language := flattenField item.language "en"
    format := flattenField item.format ""
    viewUrl := "https://archive.org/details/" ++ identifier
    downloadUrl := "https://archive.org/download/" ++ identifier
    imageUrl := "https://archive.org/services/img/" ++ identifier
    category := "books"
    popularity := item.downloads.getD 0 }

/-- A document survives the two `continue`s of the loop (lines 118-135)
exactly when its identifier is non-empty and it misses the denylist. -/
def keepDoc (item : ArchiveDoc) : Bool :=
  item.identifier.getD "" ≠ "" && !skipMatch item

/-- One iteration of the `for idx, item in enumerate(docs)` loop. -/
def normStep (books : List Book) (item : ArchiveDoc) : List Book :=
  if item.identifier.getD "" = "" then books
  else if skipMatch item then books
  else books ++ [mkBook (books.length + 1) item]

/-- The whole normalization loop (lines 116-155). -/
def normalizeDocs (docs : List ArchiveDoc) : List Book :=
  docs.foldl normStep []

/-- Specification helper: the books built from `l`, numbered consecutively
from `n`. -/
def withIds (n : Nat) : List ArchiveDoc → List Book
  | [] => []
  | d :: ds => mkBook n d :: withIds (n + 1) ds

/-- Lines 109-114: the document array selection, with the `items` fallback. -/
def selectDocs (data : ArchiveData) : List ArchiveDoc :=
  match data.response with
  | some r =>
    match r.docs with
    | some ds => ds
    | none => (data.items).getD []
  | none => (data.items).getD []

/-- Line 157: `data.get('response', \x7b\x7d).get('numFound', 0) if 'response'
in data else len(docs)`. -/
def archiveTotalFound (data : ArchiveData) : Nat :=
  match data.response with
  | some r => r.numFound.getD 0
  | none => (selectDocs data).length

/-! ## Archive.org search and details operations -/

/-- Outcome of `requests.get` + `raise_for_status` + `response.json()`
(lines 103-106). `requestExc` is any `requests.RequestException` — timeout,
connection failure or the `HTTPError` raised for a non-2xx status — with
its `str(e)`; `otherExc` is any other exception (e.g. a JSON decode error
or an unexpected body shape), with its `str(e)`. -/
inductive ArchiveFetch where
  | ok (data : ArchiveData)
  | requestExc (msg : String)
  | otherExc (msg : String)
  deriving DecidableEq, Repr

/-- The dict returned by `search_archive_org_books`: the success shape
(lines 159-166) fills `books`, `total`, `query`, `total_found` and
`message`; the failure shapes (lines 168-179) fill `error` and leave
`books` empty. -/
structure ArchiveSearchResult where
  success : Bool
  books : List Book
  total : Option Nat := none
  query : Option String := none
  total_found : Option Nat := none
  message : Option String := none
  error : Option String := none
  deriving DecidableEq, Repr

/-- The message string at line 165. -/
def archiveMessage (bookCount totalFound : Nat) : String :=
  if bookCount ≠ 0 then
    "Found " ++ toString bookCount ++ " relevant books out of " ++
      toString totalFound ++ " total results"
  else
    "No books found matching your search. Try different keywords or browse categories."

/-- `search_archive_org_books(query, category, limit)`. The HTTP layer is
the parameter `fetch`, called on the built query expression and the
requested row count `min(limit, 100)`, mirroring lines 94-104. -/
def search_archive_org_books (query : String) (category : Option String)
    (limit : Nat) (fetch : String → Nat → ArchiveFetch) : ArchiveSearchResult :=
  match fetch (buildSearchQuery query category) (archiveRows limit) with
  | .requestExc msg =>
    { success := false, books := [], error := some ("Network error: " ++ msg) }
  | .otherExc msg =>
    { success := false, books := [], error := some ("Search error: " ++ msg) }
  | .ok data =>
    let docs := selectDocs data
    let books := normalizeDocs docs
    let totalFound := archiveTotalFound data
    { success := true
      books := books
      total := some books.length
      query := some query
      total_found := some totalFound
      message := some (archiveMessage books.length totalFound) }

/-- One file entry of the Archive.org metadata response (fields read at
lines 201-207). -/
structure FileEntry where
  name : Option String := none
  source : Option String := none
  deriving DecidableEq, Repr

/-- The `metadata` object of the metadata response (fields read at lines
212-218). -/
structure MetaObj where
  title : Option String := none
  creator : Option StrOrList := none
  description : Option StrOrList := none
  date : Option String := none
  subject : Option StrOrList := none
  language : Option StrOrList := none
  downloads : Option Nat := none
  deriving DecidableEq, Repr

/-- Parsed JSON body of the metadata endpoint. -/
structure MetadataResponse where
  metadata : Option MetaObj := none
  files : List FileEntry := []
  deriving DecidableEq, Repr

/-- Outcome of the metadata fetch in `get_book_details`. -/
inductive DetailsFetch where
  | ok (md : MetadataResponse)
  | exc (msg : String)
  deriving DecidableEq, Repr

/-- The dict returned by `get_book_details` (lines 209-228). -/
structure DetailsResult where
  success : Bool
  error : Option String := none
  identifier : Option String := none
  title : Option String := none
  creator : Option String := none
  description : Option StrOrList := none
  date : Option String := none
  subject : Option String := none
  language : Option String := none
  downloads : Option Nat := none
  downloadUrls : List (String × String) := []
  viewUrl : Option String := none
  imageUrl : Option String := none
  deriving DecidableEq, Repr

/-- Python dict assignment on an association list: overwrite in place when
the key exists, append otherwise. -/
def dictPut (m : List (String × String)) (k v : String) : List (String × String) :=
  if m.any (fun p => p.1 = k) then
    m.map (fun p => if p.1 = k then (k, v) else p)
  else m ++ [(k, v)]

/-- The download-URL loop body (lines 201-207): keep original files whose
extension is one of pdf/epub/txt/djvu. -/
def fileStep (identifier : String) (acc : List (String × String))
    (f : FileEntry) : List (String × String) :=
  let name := pyLower (f.name.getD "")
  let source := pyLower (f.source.getD "")
  if source = "original" || strIn "original" name then
    let ext := if strIn "." name then ((name.splitOn ".").getLastD "") else ""
    if ext = "pdf" || ext = "epub" || ext = "txt" || ext = "djvu" then
      dictPut acc ext
        ("https://archive.org/download/" ++ identifier ++ "/" ++ f.name.getD "")
    else acc
  else acc

/-- `get_book_details(identifier)` (lines 181-228), with the metadata HTTP
call abstracted as `fetch`. -/
def get_book_details (identifier : String) (fetch : DetailsFetch) : DetailsResult :=
  match fetch with
  | .exc msg =>
    { success := false, error := some ("Failed to get book details: " ++ msg) }
  | .ok md =>
    match md.metadata with
    | none => { success := false, error := some "Book not found" }
    | some meta =>
      { success := true
        identifier := some identifier
        title := some (meta.title.getD "Unknown Title")
        creator := some (flattenField meta.creator "Unknown Author")
        description := some (meta.description.getD (.s ""))
        date := some (meta.date.getD "Unknown")
        subject := some (flattenField meta.subject "")
        language := some (flattenField meta.language "en")
        downloads := some (meta.downloads.getD 0)
        downloadUrls := md.files.foldl (fileStep identifier) []
        viewUrl := some ("https://archive.org/details/" ++ identifier)
        imageUrl := some ("https://archive.org/services/img/" ++ identifier) }

/-! ## PDF Drive scraper (pdf-drive-scraper.py) -/

/-- The fixed scraper base URL (line 19). -/
def pdfBaseUrl : String := "https://www.pdfdrive.com"

/-- Python's `urllib.parse.urljoin` restricted to the fixed base
`https://www.pdfdrive.com` (which has no path component): an absolute URL
passes through, an empty reference yields the base, and a relative
reference is attached under the host. -/
def urljoinBase (rel : String) : String :=
  if rel = "" then pdfBaseUrl
  else if strStartsWith rel "http://" || strStartsWith rel "https://" then rel
  else if strStartsWith rel "/" then pdfBaseUrl ++ rel
  else pdfBaseUrl ++ "/" ++ rel

/-- Numeric value of a run of ASCII digits. -/
def digitsToNat (ds : List Char) : Nat :=
  ds.foldl (fun acc c => acc * 10 + (c.toNat - 48)) 0

/-- First match of the regex `(\d+)\s*pages` (line 119): at each start
position take the maximal digit run, skip whitespace, and require the
literal `pages`. -/
def pagesSearchAux : List Char → Option Nat
  | [] => none
  | c :: rest =>
    if c.isDigit then
      let ds := (c :: rest).takeWhile Char.isDigit
      let after := ((c :: rest).dropWhile Char.isDigit).dropWhile Char.isWhitespace
      if "pages".data.isPrefixOf after then some (digitsToNat ds)
      else pagesSearchAux rest
    else pagesSearchAux rest

/-- Accumulated pages/size/year details (lines 113-125). -/
structure PdfDetails where
  pages : Option Nat := none
  size : Option String := none
  year : Option String := none
  deriving DecidableEq, Repr

/-- One iteration of the detail-span loop (lines 116-125). -/
def detailStep (d : PdfDetails) (span : String) : PdfDetails :=
  let text := pyLower (pyStrip span)
  if strIn "pages" text then
    match pagesSearchAux text.data with
    | some n => { d with pages := some n }
    | none => d
  else if strIn "mb" text || strIn "kb" text || strIn "gb" text then
    { d with size := some (pyStrip span) }
  else if text.length = 4 && text.data.all Char.isDigit then
    { d with year := some text }
  else d

/-- Preview truncation (line 130): strip, then cut to 200 characters with
an ellipsis when longer. -/
def pdfPreview (t : String) : String :=
  let p := pyStrip t
  if p.length > 200 then String.mk (p.data.take 200) ++ "..." else p

/-- Python's `str.title()` over ASCII: the first letter of each alphabetic
run is uppercased, the rest lowercased. -/
def pyTitleAux : List Char → Bool → List Char
  | [], _ => []
  | c :: r, prevAlpha =>
    (if c.isAlpha then (if prevAlpha then c.toLower else c.toUpper) else c) ::
      pyTitleAux r c.isAlpha

/-- Python's `s.title()`. -/
def pyTitleCase (s : String) : String := String.mk (pyTitleAux s.data false)

/-- First match of the regex `/category/([^/]+)` (line 139): leftmost
occurrence of the literal `/category/` followed by at least one
non-slash character. -/
def categoryFromUrl : List Char → Option String
  | [] => none
  | c :: rest =>
    if "/category/".data.isPrefixOf (c :: rest) then
      let seg := ((c :: rest).drop 10).takeWhile (fun ch => ch ≠ '/')
      if seg.isEmpty then categoryFromUrl rest else some (String.mk seg)
    else categoryFromUrl rest

/-- One `div.file-right` search-result element, holding exactly what
`_extract_book_data` reads from the parsed HTML. `titleLink` is the
`(text, href)` of the anchor inside `h2.file-title`; it is `none` when the
heading, the anchor or its `href` is missing (a missing `href` raises a
`KeyError`, which the method's own handler turns into `None` as well). -/
structure PdfElement where
  titleLink : Option (String × String) := none
  authorText : Option String := none
  detailSpans : Option (List String) := none
  previewText : Option String := none
  parentImgSrc : Option String := none
  deriving DecidableEq, Repr

/-- The book dict built by `_extract_book_data` (lines 96-152), before the
caller attaches an `id`. Note there is no `identifier` field. -/
structure PdfBookData where
  title : String
  url : String
  author : Option String := none
  pages : Option Nat := none
  size : Option String := none
  year : Option String := none
  preview : Option String := none
  imageUrl : Option String := none
  category : Option String := none
  extension : String := "pdf"
  language : String := "english"
  popularity : Nat := 0
  downloadUrl : String := ""
  deriving DecidableEq, Repr

/-- `PdfDriveScraper._extract_book_data(element)`: `none` models the
`return None` paths (missing title anchor, or an exception). -/
def pdfExtract (element : PdfElement) : Option PdfBookData :=
  match element.titleLink with
  | none => none
  | some (text, href) =>
    let url := urljoinBase href
    let det := (element.detailSpans.getD []).foldl detailStep {}
    some
      { title := pyStrip text
        url := url
        author := element.authorText.map pyStrip
        pages := det.pages
        size := det.size
        year := det.year
        preview := element.previewText.map pdfPreview
        imageUrl :=
          match element.parentImgSrc with
          | some src => if src ≠ "" then some (urljoinBase src) else none
          | none => none
        category :=
          if strIn "category" url then
            match categoryFromUrl url.data with
            | some seg => some (pyTitleCase (seg.replace "-" " "))
            | none => none
          else none
        downloadUrl := url }

/-- A PDF Drive book with the id attached at line 66. -/
structure PdfBook where
  id : Nat
  data : PdfBookData
  deriving DecidableEq, Repr

/-- The `for idx, element in enumerate(book_elements[:limit])` loop
(lines 62-70): the id is `idx + 1` for the element position, whether or
not earlier elements were skipped. -/
def pdfLoop : Nat → List PdfElement → List PdfBook
  | _, [] => []
  | idx, e :: es =>
    match pdfExtract e with
    | some d => { id := idx + 1, data := d } :: pdfLoop (idx + 1) es
    | none => pdfLoop (idx + 1) es

/-- Truncation to the first `limit` elements, then the extraction loop. -/
def pdfCollect (elements : List PdfElement) (limit : Nat) : List PdfBook :=
  pdfLoop 0 (elements.take limit)

/-- Outcome of the aiohttp GET (lines 46-57): a response with its status
and the parsed `div.file-right` elements, an `asyncio.TimeoutError`, or
any other exception with its `str(e)`. -/
inductive PdfFetch where
  | resp (status : Nat) (elements : List PdfElement)
  | timeout
  | exc (msg : String)
  deriving DecidableEq, Repr

/-- The dict returned by `PdfDriveScraper.search_books`. -/
structure PdfSearchResult where
  success : Bool
  books : List PdfBook
  total : Option Nat := none
  error : Option String := none
  deriving DecidableEq, Repr

/-- `PdfDriveScraper.search_books(query, category, limit)` (lines 30-90),
with the HTTP layer abstracted as `fetch`. -/
def PdfDriveScraper.search_books (query : String) (category : Option String)
    (limit : Nat) (fetch : PdfFetch) : PdfSearchResult :=
  match fetch with
  | .resp status elements =>
    if status ≠ 200 then
      { success := false, books := [], error := some ("HTTP " ++ toString status) }
    else
      let books := pdfCollect elements limit
      { success := true, books := books, total := some books.length }
  | .timeout =>
    { success := false, books := [], error := some "Request timeout" }
  | .exc msg =>
    { success := false, books := [], error := some msg }

/-! ## CLI entry points

Exit-code behaviour of the two scripts, as a function of `sys.argv`.
`some n` is a clean `sys.exit`-style termination with code `n`; `none`
models an uncaught exception reaching the process boundary (Python then
exits non-zero with a traceback). The only statement outside a handler
that can raise on string input is the `int(...)` parse of the limit
argument. -/

/-- The `__main__` block of `archive-org-search.py` (lines 230-260). -/
def archiveCliExit (argv : List String) : Option Nat :=
  if argv.length < 2 then some 1
  else if argv.getD 1 "" = "search" then
    if argv.length < 3 then some 1
    else if 4 < argv.length then
      match pyInt (argv.getD 4 "") with
      | none => none
      | some _ => some 0
    else some 0
  else if argv.getD 1 "" = "details" then
    if argv.length < 3 then some 1 else some 0
  else some 1

/-- The `main()` coroutine of `pdf-drive-scraper.py` (lines 183-209) run
under `asyncio.run`: a missing query prints a usage record and returns
(exit 0); a bad limit argument raises out of `main` (non-zero exit); every
other path prints a result and exits 0. -/
def pdfCliExit (argv : List String) : Option Nat :=
  if argv.length < 2 then some 0
  else if 3 < argv.length then
    match pyInt (argv.getD 3 "") with
    | none => none
    | some _ => some 0
  else some 0

/-! ## Concrete sample inputs used by witnesses and counterexamples -/

/-- A document whose title is present but empty. -/
def emptyTitleDoc : ArchiveDoc := { identifier := some "item1", title := some "" }

/-- A response carrying only `emptyTitleDoc`. -/
def emptyTitleData : ArchiveData :=
  { response := some { docs := some [emptyTitleDoc], numFound := some 1 } }

/-- A document whose description is a provider list. -/
def listDescDoc : ArchiveDoc :=
  { identifier := some "item2", title := some "Algebra Book",
    description := some (.l ["red", "blue"]) }

/-- A response carrying only `listDescDoc`. -/
def listDescData : ArchiveData :=
  { response := some { docs := some [listDescDoc], numFound := some 1 } }

/-- A document with a list-valued creator field. -/
def listCreatorDoc : ArchiveDoc :=
  { identifier := some "item3", creator := some (.l ["Ada Lovelace", "Alan Turing"]) }

/-- A document whose title matches the non-book denylist. -/
def gameManualDoc : ArchiveDoc :=
  { identifier := some "gm1", title := some "Game Manual v2" }

/-- A document that survives every filter. -/
def plainDoc : ArchiveDoc :=
  { identifier := some "ok1", title := some "Linear Algebra" }

/-- A response with a present but empty document array. -/
def emptyDocsData : ArchiveData :=
  { response := some { docs := some [], numFound := some 0 } }

/-- A search-result element without a title anchor: extraction yields
`None`. -/
def noTitleElement : PdfElement := {}

/-- A well-formed search-result element. -/
def goodElement : PdfElement :=
  { titleLink := some ("Linear Algebra", "/book1") }

/-- The book data `_extract_book_data` produces from `goodElement`. -/
def goodBookData : PdfBookData :=
  { title := "Linear Algebra", url := "https://www.pdfdrive.com/book1",
    downloadUrl := "https://www.pdfdrive.com/book1" }

/-! ## Infrastructure lemmas -/

theorem mkBook_id (i : Nat) (item : ArchiveDoc) : (mkBook i item).id = i := rfl

theorem mkBook_identifier (i : Nat) (item : ArchiveDoc) :
    (mkBook i item).identifier = item.identifier.getD "" := rfl

theorem normStep_keep {item : ArchiveDoc} (books : List Book)
    (h : keepDoc item = true) :
    normStep books item = books ++ [mkBook (books.length + 1) item] := by
  simp only [keepDoc, Bool.and_eq_true, ne_eq, decide_eq_true_eq,
    Bool.not_eq_true'] at h
  simp [normStep, h.1, h.2]

theorem normStep_drop {item : ArchiveDoc} (books : List Book)
    (h : keepDoc item = false) : normStep books item = books := by
  by_cases hid : item.identifier.getD "" = ""
  · simp [normStep, hid]
  · have hs : skipMatch item = true := by
      simp only [keepDoc, Bool.and_eq_false_iff, ne_eq, decide_eq_false_iff_not,
        not_not, Bool.not_eq_false] at h
      rcases h with h | h
      · exact absurd h hid
      · simpa using h
    simp [normStep, hs]

theorem foldl_normStep_eq (docs : List ArchiveDoc) :
    ∀ acc : List Book,
      docs.foldl normStep acc = acc ++ withIds (acc.length + 1) (docs.filter keepDoc) := by
  induction docs with
  | nil => intro acc; simp [withIds]
  | cons d ds ih =>
    intro acc
    by_cases hk : keepDoc d = true
    · simp only [List.foldl_cons, normStep_keep acc hk, ih, List.filter_cons,
        hk, if_pos, List.length_append, List.length_cons, List.length_nil]
      simp [withIds, List.append_assoc]
    · have hk' : keepDoc d = false := by simpa using hk
      simp [List.foldl_cons, normStep_drop acc hk', ih, List.filter_cons, hk']

theorem normalizeDocs_eq_withIds (docs : List ArchiveDoc) :
    normalizeDocs docs = withIds 1 (docs.filter keepDoc) := by
  simpa using foldl_normStep_eq docs []

theorem withIds_length : ∀ (l : List ArchiveDoc) (n : Nat), (withIds n l).length = l.length
  | [], _ => rfl
  | _ :: ds, n => by simp [withIds, withIds_length ds (n + 1)]

theorem withIds_map_id : ∀ (l : List ArchiveDoc) (n : Nat),
    (withIds n l).map Book.id = List.range' n l.length
  | [], _ => rfl
  | d :: ds, n => by
    simp [withIds, withIds_map_id ds (n + 1), List.range'_succ, mkBook_id]

theorem withIds_mem : ∀ (l : List ArchiveDoc) (n : Nat) (b : Book),
    b ∈ withIds n l → ∃ d ∈ l, ∃ k, b = mkBook k d
  | [], _, _, h => by simp [withIds] at h
  | d :: ds, n, b, h => by
    rcases (by simpa [withIds] using h : b = mkBook n d ∨ b ∈ withIds (n + 1) ds) with h1 | h2
    · exact ⟨d, by simp, n, h1⟩
    · rcases withIds_mem ds (n + 1) b h2 with ⟨d2, hd2, k, hk⟩
      exact ⟨d2, by simp [hd2], k, hk⟩

theorem normalizeDocs_length_le (docs : List ArchiveDoc) :
    (normalizeDocs docs).length ≤ docs.length := by
  rw [normalizeDocs_eq_withIds, withIds_length]
  exact List.length_filter_le _ _

theorem strAppend_ne_empty (a b : String) (h : a ≠ "") : a ++ b ≠ "" := by
  intro hc
  apply h
  have hd := congrArg String.data hc
  simp only [String.data_append] at hd
  rcases List.append_eq_nil.mp hd with ⟨ha, _⟩
  cases a
  simp_all

theorem pdfLoop_length_le : ∀ (es : List PdfElement) (i : Nat),
    (pdfLoop i es).length ≤ es.length
  | [], _ => Nat.le_refl 0
  | e :: es, i => by
    cases hx : pdfExtract e with
    | some d =>
      simpa [pdfLoop, hx] using Nat.succ_le_succ (pdfLoop_length_le es (i + 1))
    | none =>
      simp only [pdfLoop, hx, List.length_cons]
      exact Nat.le_succ_of_le (pdfLoop_length_le es (i + 1))

theorem pdfLoop_mem : ∀ (es : List PdfElement) (i : Nat) (b : PdfBook),
    b ∈ pdfLoop i es →
      ∃ j, ∃ hj : j < es.length,
        b.id = i + j + 1 ∧ pdfExtract (es.get ⟨j, hj⟩) = some b.data
  | [], _, _, h => by simp [pdfLoop] at h
  | e :: es, i, b, h => by
    cases hx : pdfExtract e with
    | some d =>
      rcases (by simpa [pdfLoop, hx] using h :
          b = { id := i + 1, data := d } ∨ b ∈ pdfLoop (i + 1) es) with h1 | h2
      · refine ⟨0, by simp, ?_, ?_⟩
        · simp [h1]
        · simpa [h1] using hx
      · rcases pdfLoop_mem es (i + 1) b h2 with ⟨j, hj, hid, hex⟩
        refine ⟨j + 1, by simpa using Nat.succ_lt_succ hj, ?_, ?_⟩
        · omega
        · simpa using hex
    | none =>
      rcases pdfLoop_mem es (i + 1) b (by simpa [pdfLoop, hx] using h) with ⟨j, hj, hid, hex⟩
      refine ⟨j + 1, by simpa using Nat.succ_lt_succ hj, ?_, ?_⟩
      · omega
      · simpa using hex

theorem pdfLoop_id_gt (es : List PdfElement) (i : Nat) (b : PdfBook)
    (h : b ∈ pdfLoop i es) : i < b.id := by
  rcases pdfLoop_mem es i b h with ⟨j, hj, hid, _⟩
  omega

theorem pdfLoop_sorted : ∀ (es : List PdfElement) (i : Nat),
    ((pdfLoop i es).map PdfBook.id).Sorted (· < ·)
  | [], _ => List.sorted_nil
  | e :: es, i => by
    cases hx : pdfExtract e with
    | some d =>
      simp only [pdfLoop, hx, List.map_cons, List.sorted_cons]
      constructor
      · intro x hxmem
        rcases List.mem_map.mp hxmem with ⟨b, hb, rfl⟩
        exact Nat.lt_of_succ_le (pdfLoop_id_gt es (i + 1) b hb)
      · exact pdfLoop_sorted es (i + 1)
    | none => simpa [pdfLoop, hx] using pdfLoop_sorted es (i + 1)

/-! ## Claim theorems -/

/-- C9: the query builder is total — every query/category input yields a
single query string — and an empty query with no category builds exactly
the media-type filter plus the collection denylist, with no per-field
match clauses. -/
theorem claim9_query_builder :
    (∀ (q : String) (c : Option String), ∃ s, buildSearchQuery q c = s) ∧
    buildSearchQuery "" none =
      "mediatype:texts AND -collection:softwarehistory AND -collection:vgmuseum" :=
  ⟨fun q c => ⟨buildSearchQuery q c, rfl⟩, rfl⟩

/-- C10: on every successful search the `total` field equals the length of
the returned `books` list, while `search_archive_org_books` exposes the
provider's reported match count separately as `total_found`
(`numFound`-based, via `archiveTotalFound`). -/
theorem claim10_total_eq_len :
    (∀ (q : String) (c : Option String) (l : Nat) (data : ArchiveData),
      (search_archive_org_books q c l (fun _ _ => .ok data)).total =
        some (search_archive_org_books q c l (fun _ _ => .ok data)).books.length ∧
      (search_archive_org_books q c l (fun _ _ => .ok data)).total_found =
        some (archiveTotalFound data)) ∧
    (∀ (q : String) (c : Option String) (l : Nat) (elements : List PdfElement),
      (PdfDriveScraper.search_books q c l (.resp 200 elements)).total =
        some (PdfDriveScraper.search_books q c l (.resp 200 elements)).books.length) := by
  constructor
  · intro q c l data
    constructor <;> simp [search_archive_org_books]
  · intro q c l elements
    simp [PdfDriveScraper.search_books]

/-- C5: a provider response whose selected document array is empty —
either zero matching documents or no document array at all — yields a
success record with an empty book list and `total = 0`, not a failure. -/
theorem claim5_empty_results :
    ∀ (q : String) (c : Option String) (l : Nat) (data : ArchiveData),
      selectDocs data = [] →
      search_archive_org_books q c l (fun _ _ => .ok data) =
        { success := true, books := [], total := some 0, query := some q,
          total_found := some (archiveTotalFound data),
          message := some (archiveMessage 0 (archiveTotalFound data)) } := by
  intro q c l data h
  simp [search_archive_org_books, h, normalizeDocs]

theorem claim5_empty_results_witness :
    search_archive_org_books "algebra" none 20 (fun _ _ => .ok emptyDocsData) =
      { success := true, books := [], total := some 0, query := some "algebra",
        total_found := some (archiveTotalFound emptyDocsData),
        message := some (archiveMessage 0 (archiveTotalFound emptyDocsData)) } :=
  claim5_empty_results "algebra" none 20 emptyDocsData rfl

/-- C6: a document whose lowered title or description contains a denylist
keyword is skipped and contributes no book to the normalized output. -/
theorem claim6_denylist_skip :
    ∀ (pre post : List ArchiveDoc) (d : ArchiveDoc), skipMatch d = true →
      normalizeDocs (pre ++ d :: post) = normalizeDocs (pre ++ post) := by
  intro pre post d h
  have hk : keepDoc d = false := by simp [keepDoc, h]
  unfold normalizeDocs
  rw [List.foldl_append, List.foldl_append, List.foldl_cons, normStep_drop _ hk]

theorem claim6_denylist_skip_witness :
    skipMatch gameManualDoc = true ∧
    normalizeDocs ([] ++ gameManualDoc :: [plainDoc]) = normalizeDocs ([] ++ [plainDoc]) :=
  ⟨by decide, claim6_denylist_skip [] [plainDoc] gameManualDoc (by decide)⟩

/-- C1: a successful search never returns more than `limit` books. The
Archive.org fetcher asks the provider for `min(limit, 100)` rows, so under
the provider honouring the row bound its output is bounded by `limit`; the
PDF Drive scraper truncates the parsed elements to the first `limit`
before extraction, so its bound is unconditional. -/
theorem claim1_limit_bound :
    (∀ (q : String) (c : Option String) (l : Nat) (fetch : String → Nat → ArchiveFetch),
      (∀ s rows data, fetch s rows = .ok data → (selectDocs data).length ≤ rows) →
      (search_archive_org_books q c l fetch).books.length ≤ l) ∧
    (∀ l : Nat, archiveRows l ≤ l ∧ archiveRows l ≤ 100) ∧
    (∀ (q : String) (c : Option String) (l : Nat) (f : PdfFetch),
      (PdfDriveScraper.search_books q c l f).books.length ≤ l) := by
  refine ⟨?_, ?_, ?_⟩
  · intro q c l fetch h
    cases hf : fetch (buildSearchQuery q c) (archiveRows l) with
    | ok data =>
      have hbooks : (search_archive_org_books q c l fetch).books =
          normalizeDocs (selectDocs data) := by
        simp [search_archive_org_books, hf]
      rw [hbooks]
      calc (normalizeDocs (selectDocs data)).length
          ≤ (selectDocs data).length := normalizeDocs_length_le _
        _ ≤ archiveRows l := h _ _ _ hf
        _ ≤ l := Nat.min_le_left l 100
    | requestExc msg => simp [search_archive_org_books, hf]
    | otherExc msg => simp [search_archive_org_books, hf]
  · intro l
    exact ⟨Nat.min_le_left l 100, Nat.min_le_right l 100⟩
  · intro q c l f
    cases f with
    | resp status elements =>
      by_cases hs : status = 200
      · subst hs
        have hbooks : (PdfDriveScraper.search_books q c l (.resp 200 elements)).books =
            pdfCollect elements l := by
          simp [PdfDriveScraper.search_books]
        rw [hbooks]
        calc (pdfCollect elements l).length
            ≤ (elements.take l).length := pdfLoop_length_le _ 0
          _ ≤ l := List.length_take_le l elements
      · simp [PdfDriveScraper.search_books, hs]
    | timeout => simp [PdfDriveScraper.search_books]
    | exc m => simp [PdfDriveScraper.search_books]

theorem claim1_limit_bound_witness :
    (search_archive_org_books "algebra" none 5
        (fun _ _ => .ok emptyDocsData)).books.length ≤ 5 :=
  claim1_limit_bound.1 "algebra" none 5 (fun _ _ => .ok emptyDocsData)
    (by intro s rows data h; cases h; simp [selectDocs, emptyDocsData])

/-- C4: every fetch failure — a `requests.RequestException` (timeout,
connection error or non-2xx `HTTPError`), any other Archive.org-side
exception, a non-200 PDF Drive status, an `asyncio.TimeoutError`, or an
exception carrying a non-empty message — is converted into a structured
record with `success = false`, a non-empty error string and an empty book
list; no exception escapes (the search functions are total). -/
theorem claim4_failure_record :
    (∀ (q : String) (c : Option String) (l : Nat) (msg : String),
      search_archive_org_books q c l (fun _ _ => .requestExc msg) =
        { success := false, books := [], error := some ("Network error: " ++ msg) } ∧
      ("Network error: " ++ msg) ≠ "") ∧
    (∀ (q : String) (c : Option String) (l : Nat) (msg : String),
      search_archive_org_books q c l (fun _ _ => .otherExc msg) =
        { success := false, books := [], error := some ("Search error: " ++ msg) } ∧
      ("Search error: " ++ msg) ≠ "") ∧
    (∀ (q : String) (c : Option String) (l : Nat) (status : Nat)
        (elements : List PdfElement), status ≠ 200 →
      PdfDriveScraper.search_books q c l (.resp status elements) =
        { success := false, books := [], error := some ("HTTP " ++ toString status) } ∧
      ("HTTP " ++ toString status) ≠ "") ∧
    (∀ (q : String) (c : Option String) (l : Nat),
      PdfDriveScraper.search_books q c l .timeout =
        { success := false, books := [], error := some "Request timeout" }) ∧
    (∀ (q : String) (c : Option String) (l : Nat) (msg : String), msg ≠ "" →
      PdfDriveScraper.search_books q c l (.exc msg) =
        { success := false, books := [], error := some msg } ∧ msg ≠ "") := by
  refine ⟨?_, ?_, ?_, ?_, ?_⟩
  · intro q c l msg
    exact ⟨rfl, strAppend_ne_empty _ _ (by decide)⟩
  · intro q c l msg
    exact ⟨rfl, strAppend_ne_empty _ _ (by decide)⟩
  · intro q c l status elements hs
    refine ⟨by simp [PdfDriveScraper.search_books, hs], strAppend_ne_empty _ _ (by decide)⟩
  · intro q c l
    rfl
  · intro q c l msg hm
    exact ⟨rfl, hm⟩

theorem claim4_failure_record_witness :
    (PdfDriveScraper.search_books "q" none 20 (.resp 404 []) =
        { success := false, books := [], error := some ("HTTP " ++ toString (404 : Nat)) } ∧
      ("HTTP " ++ toString (404 : Nat)) ≠ "") ∧
    (PdfDriveScraper.search_books "q" none 20 (.exc "boom") =
        { success := false, books := [], error := some "boom" } ∧ ("boom" : String) ≠ "") :=
  ⟨claim4_failure_record.2.2.1 "q" none 20 404 [] (by decide),
   claim4_failure_record.2.2.2.2 "q" none 20 "boom" (by decide)⟩

theorem urljoinBase_ne_empty (rel : String) : urljoinBase rel ≠ "" := by
  unfold urljoinBase
  split
  · decide
  · next hrel =>
    split
    · exact hrel
    · split
      · exact strAppend_ne_empty _ _ (by decide)
      · exact strAppend_ne_empty _ _ (by decide)

/-- C2 counterexample: a provider document whose title field is present but
empty produces, on a successful search, a book whose title is the empty
string — the "Unknown Title" default applies only to an absent title. -/
theorem claim2_counterexample :
    (search_archive_org_books "algebra" none 20 (fun _ _ => .ok emptyTitleData)).success = true ∧
    (search_archive_org_books "algebra" none 20
        (fun _ _ => .ok emptyTitleData)).books.map Book.title = [""] := by
  exact ⟨rfl, by decide⟩

/-- C2 amended: every book emitted by the Archive.org normalizer has a
non-empty identifier; its title is the document title when present (so
empty exactly when the provider sent an empty title) and defaults to
"Unknown Title" only when the title is absent. PDF Drive books carry no
identifier field at all; they are keyed by a `url`, which is never empty. -/
theorem claim2_amended :
    (∀ (docs : List ArchiveDoc) (b : Book), b ∈ normalizeDocs docs → b.identifier ≠ "") ∧
    (∀ (i : Nat) (item : ArchiveDoc), item.title = none →
      (mkBook i item).title = "Unknown Title") ∧
    (∀ (i : Nat) (item : ArchiveDoc) (s : String), item.title = some s →
      (mkBook i item).title = s) ∧
    (∀ (e : PdfElement) (d : PdfBookData), pdfExtract e = some d → d.url ≠ "") := by
  refine ⟨?_, ?_, ?_, ?_⟩
  · intro docs b hb
    rw [normalizeDocs_eq_withIds] at hb
    rcases withIds_mem _ _ _ hb with ⟨d, hd, k, rfl⟩
    rw [mkBook_identifier]
    have hkeep : keepDoc d = true := List.of_mem_filter hd
    simp only [keepDoc, Bool.and_eq_true, ne_eq, decide_eq_true_eq] at hkeep
    exact hkeep.1
  · intro i item h
    simp [mkBook, h]
  · intro i item s h
    simp [mkBook, h]
  · intro e d h
    rcases htl : e.titleLink with _ | ⟨text, href⟩
    · simp [pdfExtract, htl] at h
    · simp only [pdfExtract, htl] at h
      injection h with h2
      subst h2
      exact urljoinBase_ne_empty href

theorem claim2_amended_witness :
    ((mkBook 1 plainDoc).identifier ≠ "") ∧
    ((mkBook 1 ({ identifier := some "x" } : ArchiveDoc)).title = "Unknown Title") ∧
    ((mkBook 1 emptyTitleDoc).title = "") ∧
    (goodBookData.url ≠ "") :=
  ⟨claim2_amended.1 [plainDoc] (mkBook 1 plainDoc) (by decide),
   claim2_amended.2.1 1 { identifier := some "x" } rfl,
   claim2_amended.2.2.1 1 emptyTitleDoc "" rfl,
   claim2_amended.2.2.2 goodElement goodBookData (by decide)⟩

/-- C3 counterexample: a document whose description is a provider list is
returned with that raw list in the book's description field — the
normalizer does not flatten `description`. -/
theorem claim3_counterexample :
    (search_archive_org_books "algebra" none 20 (fun _ _ => .ok listDescData)).success = true ∧
    (search_archive_org_books "algebra" none 20
        (fun _ _ => .ok listDescData)).books.map Book.description = [.l ["red", "blue"]] := by
  exact ⟨rfl, by decide⟩

/-- C3 amended: the creator/author, subject, language and format fields are
flattened to comma-joined strings when the provider sends a list, in both
the search normalizer and `get_book_details`; the description field is the
exception and is copied raw from the provider document. -/
theorem claim3_amended :
    (∀ (i : Nat) (item : ArchiveDoc) (vs : List String), item.creator = some (.l vs) →
      (mkBook i item).author = String.intercalate ", " vs) ∧
    (∀ (i : Nat) (item : ArchiveDoc) (vs : List String), item.subject = some (.l vs) →
      (mkBook i item).subject = String.intercalate ", " vs) ∧
    (∀ (i : Nat) (item : ArchiveDoc) (vs : List String), item.language = some (.l vs) →
      (mkBook i item).language = String.intercalate ", " vs) ∧
    (∀ (i : Nat) (item : ArchiveDoc) (vs : List String), item.format = some (.l vs) →
      (mkBook i item).format = String.intercalate ", " vs) ∧
    (∀ (i : Nat) (item : ArchiveDoc),
      (mkBook i item).description = item.description.getD (.s "")) ∧
    (∀ (ident : String) (md : MetadataResponse) (meta : MetaObj) (vs : List String),
      md.metadata = some meta → meta.creator = some (.l vs) →
      (get_book_details ident (.ok md)).creator = some (String.intercalate ", " vs)) ∧
    (∀ (ident : String) (md : MetadataResponse) (meta : MetaObj) (vs : List String),
      md.metadata = some meta → meta.subject = some (.l vs) →
      (get_book_details ident (.ok md)).subject = some (String.intercalate ", " vs)) ∧
    (∀ (ident : String) (md : MetadataResponse) (meta : MetaObj) (vs : List String),
      md.metadata = some meta → meta.language = some (.l vs) →
      (get_book_details ident (.ok md)).language = some (String.intercalate ", " vs)) ∧
    (∀ (ident : String) (md : MetadataResponse) (meta : MetaObj),
      md.metadata = some meta →
      (get_book_details ident (.ok md)).description = some (meta.description.getD (.s ""))) := by
  refine ⟨?_, ?_, ?_, ?_, ?_, ?_, ?_, ?_, ?_⟩
  · intro i item vs h; simp [mkBook, flattenField, h]
  · intro i item vs h; simp [mkBook, flattenField, h]
  · intro i item vs h; simp [mkBook, flattenField, h]
  · intro i item vs h; simp [mkBook, flattenField, h]
  · intro i item; simp [mkBook]
  · intro ident md meta vs h1 h2; simp [get_book_details, flattenField, h1, h2]
  · intro ident md meta vs h1 h2; simp [get_book_details, flattenField, h1, h2]
  · intro ident md meta vs h1 h2; simp [get_book_details, flattenField, h1, h2]
  · intro ident md meta h1; simp [get_book_details, h1]

theorem claim3_amended_witness :
    (mkBook 1 listCreatorDoc).author =
      String.intercalate ", " ["Ada Lovelace", "Alan Turing"] :=
  claim3_amended.1 1 listCreatorDoc ["Ada Lovelace", "Alan Turing"] rfl

/-- C7 counterexample: with both the program name and a command word
present — so no required CLI argument is missing — an unrecognized command
still makes the Archive.org CLI exit with code 1. -/
theorem claim7_counterexample :
    (["archive-org-search.py", "badcmd"] : List String).length = 2 ∧
    archiveCliExit ["archive-org-search.py", "badcmd"] = some 1 := by
  exact ⟨rfl, by decide⟩

/-- C7 amended: the Archive.org CLI exits abnormally (non-zero code, or an
uncaught exception) only when a required argument is missing
(`argv.length < 3` covers the missing command and the missing
query/identifier), when the command word is neither `search` nor
`details`, or when a supplied limit argument fails integer parsing (the
only uncaught-exception case); the PDF Drive CLI exits 0 on every input —
including a missing required query, which only prints a usage error —
except for an uncaught non-integer limit parse. -/
theorem claim7_amended :
    (∀ argv : List String, archiveCliExit argv ≠ some 0 →
      argv.length < 3 ∨
      (argv.getD 1 "" ≠ "search" ∧ argv.getD 1 "" ≠ "details") ∨
      (argv.getD 1 "" = "search" ∧ 4 < argv.length ∧ pyInt (argv.getD 4 "") = none)) ∧
    (∀ argv : List String, archiveCliExit argv = none →
      argv.getD 1 "" = "search" ∧ 4 < argv.length ∧ pyInt (argv.getD 4 "") = none) ∧
    (∀ argv : List String, pdfCliExit argv ≠ some 0 →
      3 < argv.length ∧ pyInt (argv.getD 3 "") = none ∧ pdfCliExit argv = none) ∧
    pdfCliExit ["pdf-drive-scraper.py"] = some 0 := by
  refine ⟨?_, ?_, ?_, rfl⟩
  · intro argv h
    by_cases hlen2 : argv.length < 2
    · exact Or.inl (by omega)
    · by_cases hs : argv.getD 1 "" = "search"
      · by_cases hlen3 : argv.length < 3
        · exact Or.inl hlen3
        · by_cases hlen4 : 4 < argv.length
          · cases hpi : pyInt (argv.getD 4 "") with
            | none => exact Or.inr (Or.inr ⟨hs, hlen4, rfl⟩)
            | some k =>
              refine absurd ?_ h
              unfold archiveCliExit
              rw [if_neg hlen2, if_pos hs, if_neg hlen3, if_pos hlen4, hpi]
          · refine absurd ?_ h
            unfold archiveCliExit
            rw [if_neg hlen2, if_pos hs, if_neg hlen3, if_neg hlen4]
      · by_cases hd : argv.getD 1 "" = "details"
        · by_cases hlen3 : argv.length < 3
          · exact Or.inl hlen3
          · refine absurd ?_ h
            unfold archiveCliExit
            rw [if_neg hlen2, if_neg hs, if_pos hd, if_neg hlen3]
        · exact Or.inr (Or.inl ⟨hs, hd⟩)
  · intro argv h
    unfold archiveCliExit at h
    by_cases hlen2 : argv.length < 2
    · rw [if_pos hlen2] at h
      exact Option.noConfusion h
    · rw [if_neg hlen2] at h
      by_cases hs : argv.getD 1 "" = "search"
      · rw [if_pos hs] at h
        by_cases hlen3 : argv.length < 3
        · rw [if_pos hlen3] at h
          exact Option.noConfusion h
        · rw [if_neg hlen3] at h
          by_cases hlen4 : 4 < argv.length
          · rw [if_pos hlen4] at h
            cases hpi : pyInt (argv.getD 4 "") with
            | none => exact ⟨hs, hlen4, rfl⟩
            | some k =>
              rw [hpi] at h
              exact Option.noConfusion h
          · rw [if_neg hlen4] at h
            exact Option.noConfusion h
      · rw [if_neg hs] at h
        by_cases hd : argv.getD 1 "" = "details"
        · rw [if_pos hd] at h
          by_cases hlen3 : argv.length < 3
          · rw [if_pos hlen3] at h
            exact Option.noConfusion h
          · rw [if_neg hlen3] at h
            exact Option.noConfusion h
        · rw [if_neg hd] at h
          exact Option.noConfusion h
  · intro argv h
    by_cases hlen2 : argv.length < 2
    · refine absurd ?_ h
      unfold pdfCliExit
      rw [if_pos hlen2]
    · by_cases hlen3 : 3 < argv.length
      · cases hpi : pyInt (argv.getD 3 "") with
        | none =>
          refine ⟨hlen3, rfl, ?_⟩
          unfold pdfCliExit
          rw [if_neg hlen2, if_pos hlen3, hpi]
        | some k =>
          refine absurd ?_ h
          unfold pdfCliExit
          rw [if_neg hlen2, if_pos hlen3, hpi]
      · refine absurd ?_ h
        unfold pdfCliExit
        rw [if_neg hlen2, if_neg hlen3]

theorem claim7_amended_witness :
    (["x", "badcmd"] : List String).length < 3 ∨
    ((["x", "badcmd"] : List String).getD 1 "" ≠ "search" ∧
      (["x", "badcmd"] : List String).getD 1 "" ≠ "details") ∨
    ((["x", "badcmd"] : List String).getD 1 "" = "search" ∧
      4 < (["x", "badcmd"] : List String).length ∧
      pyInt ((["x", "badcmd"] : List String).getD 4 "") = none) :=
  claim7_amended.1 ["x", "badcmd"] (by decide)

/-- C8 counterexample: when the first parsed element fails extraction (no
title anchor), the single emitted book of a successful PDF Drive search
carries id 2 — the 1-based position of its source element — rather than a
consecutive 1-based sequence starting at 1. -/
theorem claim8_counterexample :
    (PdfDriveScraper.search_books "q" none 20
        (.resp 200 [noTitleElement, goodElement])).success = true ∧
    (PdfDriveScraper.search_books "q" none 20
        (.resp 200 [noTitleElement, goodElement])).books.map PdfBook.id = [2] := by
  exact ⟨rfl, by decide⟩

/-- C8 amended: both normalizers preserve provider order. The Archive.org
normalizer is exactly the in-order filter of the documents with
consecutive 1-based ids (`withIds 1`), so its id list is `[1, …, n]`; the
PDF Drive scraper assigns each book the 1-based index of its source
element within the truncated element list, so its ids are strictly
increasing but may skip values when an element fails extraction. -/
theorem claim8_amended :
    (∀ docs : List ArchiveDoc, normalizeDocs docs = withIds 1 (docs.filter keepDoc)) ∧
    (∀ docs : List ArchiveDoc,
      (normalizeDocs docs).map Book.id = List.range' 1 (normalizeDocs docs).length) ∧
    (∀ (elements : List PdfElement) (limit : Nat) (b : PdfBook),
      b ∈ pdfCollect elements limit →
        ∃ j, ∃ hj : j < (elements.take limit).length,
          b.id = j + 1 ∧ pdfExtract ((elements.take limit).get ⟨j, hj⟩) = some b.data) ∧
    (∀ (elements : List PdfElement) (limit : Nat),
      ((pdfCollect elements limit).map PdfBook.id).Sorted (· < ·)) := by
  refine ⟨normalizeDocs_eq_withIds, ?_, ?_, ?_⟩
  · intro docs
    rw [normalizeDocs_eq_withIds, withIds_map_id, withIds_length]
  · intro elements limit b hb
    rcases pdfLoop_mem _ 0 b hb with ⟨j, hj, hid, hex⟩
    exact ⟨j, hj, by omega, hex⟩
  · intro elements limit
    exact pdfLoop_sorted _ 0

theorem claim8_amended_witness :
    ∃ j, ∃ hj : j < (([noTitleElement, goodElement] : List PdfElement).take 20).length,
      (⟨2, goodBookData⟩ : PdfBook).id = j + 1 ∧
      pdfExtract ((([noTitleElement, goodElement] : List PdfElement).take 20).get ⟨j, hj⟩) =
        some (⟨2, goodBookData⟩ : PdfBook).data :=
  claim8_amended.2.2.1 [noTitleElement, goodElement] 20 ⟨2, goodBookData⟩ (by decide)

end Hellio
